import Mathlib

/-!
Shallow embedding of the TrackLightsController core
(`src/gpio_controller.py`, `src/state_manager.py`).

Positions and press counts are Python ints, modelled as `Int`
(Python `%` on a positive modulus agrees with `Int.emod`).
The state file is modelled as a disk that is either absent, holds
unparseable bytes, or holds a parsed JSON object (an association list
with Python-dict last-wins lookup).  I/O success or failure of a
`save`/`clear` call is an explicit boolean parameter; pin pulses and
sleeps are pure timing and have no effect on the modelled state.
-/

namespace TrackLights

/-- Light modes corresponding to SW4 press count (`LightMode` in
`gpio_controller.py`). -/
inductive LightMode where
  | breathe_colors
  | color_duration
  | track_direction
  | circular_pattern
  | white_mode
  | off
deriving DecidableEq

/-- The string value of a `LightMode` member (`str` Enum values). -/
def LightMode.value : LightMode → String
  | .breathe_colors => "breathe_colors"
  | .color_duration => "color_duration"
  | .track_direction => "track_direction"
  | .circular_pattern => "circular_pattern"
  | .white_mode => "white_mode"
  | .off => "off"

/-- Light colors for SW1-SW3 (`LightColor` in `gpio_controller.py`). -/
inductive LightColor where
  | red
  | green
  | yellow
deriving DecidableEq

/-- The string value of a `LightColor` member. -/
def LightColor.value : LightColor → String
  | .red => "red"
  | .green => "green"
  | .yellow => "yellow"

def PIN_SW1_RED : Int := 17
def PIN_SW2_GREEN : Int := 18
def PIN_SW3_YELLOW : Int := 27
def PIN_SW4_MODE : Int := 22

/-- Mode press count mapping (`GPIOController.MODE_PRESS_COUNT`). -/
def MODE_PRESS_COUNT : LightMode → Int
  | .breathe_colors => 1
  | .color_duration => 2
  | .track_direction => 3
  | .circular_pattern => 4
  | .white_mode => 5
  | .off => 6

/-- Reverse mapping (`GPIOController.PRESS_COUNT_TO_MODE`); a dict
lookup that raises `KeyError` is modelled as `none`. -/
def PRESS_COUNT_TO_MODE (q : Int) : Option LightMode :=
  if q = 1 then some .breathe_colors
  else if q = 2 then some .color_duration
  else if q = 3 then some .track_direction
  else if q = 4 then some .circular_pattern
  else if q = 5 then some .white_mode
  else if q = 6 then some .off
  else none

/-- The `pin_map` dict inside `press_color_switch`. -/
def pin_map : LightColor → Int
  | .red => PIN_SW1_RED
  | .green => PIN_SW2_GREEN
  | .yellow => PIN_SW3_YELLOW

/-- A fragment of JSON values sufficient for the state file. -/
inductive Json where
  | null
  | bool (b : Bool)
  | int (n : Int)
  | str (s : String)
deriving DecidableEq

/-- Python-dict lookup on an association list: the LAST binding of a
key wins, as with duplicate keys in `json.load`. -/
def dictGet : List (String × Json) → String → Option Json
  | [], _ => none
  | (k, v) :: rest, key =>
    match dictGet rest key with
    | some w => some w
    | none => if k = key then some v else none

/-- Python `isinstance(x, int)`: `int` values, and `bool` values (a
`bool` is an `int` in Python, `True = 1`, `False = 0`). -/
def isPyInt : Json → Option Int
  | .int n => some n
  | .bool b => some (if b then 1 else 0)
  | _ => none

/-- The state file on disk: absent, present but not valid JSON, or a
parsed JSON object. -/
inductive Disk where
  | absent
  | invalid
  | json (kvs : List (String × Json))
deriving DecidableEq

/-- JSON encoding of an optional color string (`null` for `None`). -/
def colorJson : Option String → Json
  | none => .null
  | some s => .str s

/-- The record `save_state` serializes (`state_data` in
`StateManager.save_state`); `now` stands for `datetime.now()`. -/
def state_data (current_mode_press_count : Int) (last_color_pressed : Option String)
    (now : Int) : List (String × Json) :=
  [("current_mode_press_count", .int current_mode_press_count),
   ("last_color_pressed", colorJson last_color_pressed),
   ("last_updated", .str (toString now))]

/-- `StateManager.save_state`: atomic write of `state_data`, returning
`true` on success; on any I/O failure (`ok = false`) the old disk
content is kept and `false` is returned. -/
def save_state (d : Disk) (ok : Bool) (current_mode_press_count : Int)
    (last_color_pressed : Option String) (now : Int) : Disk × Bool :=
  if ok then (.json (state_data current_mode_press_count last_color_pressed now), true)
  else (d, false)

/-- What `StateManager.load_state` returns: a dict with the two keys
`current_mode_press_count` and `last_color_pressed` (the latter a JSON
value, `Json.null` standing for Python `None`). -/
structure LoadedState where
  current_mode_press_count : Int
  last_color_pressed : Json
deriving DecidableEq

/-- The `default_state` dict in `load_state`. -/
def default_state : LoadedState :=
  { current_mode_press_count := 0, last_color_pressed := .null }

/-- `StateManager.load_state`: defaults when the file is absent,
unparseable, missing the required field, or the field is not an int in
`[0, 6]`; otherwise the stored position and color. -/
def load_state : Disk → LoadedState
  | .absent => default_state
  | .invalid => default_state
  | .json kvs =>
    match dictGet kvs "current_mode_press_count" with
    | none => default_state
    | some v =>
      match isPyInt v with
      | none => default_state
      | some mode_count =>
        if mode_count < 0 ∨ 6 < mode_count then default_state
        else { current_mode_press_count := mode_count,
               last_color_pressed := (dictGet kvs "last_color_pressed").getD .null }

/-- `StateManager.clear_state`: removes the file if present and returns
`true` (idempotent); on an I/O failure (`ok = false`) returns `false`
leaving the disk as it was. -/
def clear_state (d : Disk) (ok : Bool) : Disk × Bool :=
  if ok then (.absent, true) else (d, false)

/-- The in-memory mirror of `GPIOController` together with the disk it
persists to. -/
structure ControllerState where
  current_mode_press_count : Int
  last_color_pressed : Option LightColor
  disk : Disk
deriving DecidableEq

/-- `self.last_color_pressed.value if self.last_color_pressed else None`. -/
def colorValue : Option LightColor → Option String
  | some c => some c.value
  | none => none

/-- Result record of `press_color_switch`. -/
structure ColorSwitchResult where
  action : String
  color : String
  gpio_pin : Int
  timestamp : Int
deriving DecidableEq

/-- Result record of `press_mode_switch`. -/
structure ModeSwitchResult where
  action : String
  press_count : Int
  total_mode_presses : Int
  current_mode : String
  gpio_pin : Int
  timestamp : Int
deriving DecidableEq

/-- Result record of `set_mode` when no press is needed. -/
structure AlreadySetResult where
  action : String
  current_mode : String
  total_mode_presses : Int
  timestamp : Int
deriving DecidableEq

/-- `set_mode` returns either the `press_mode_switch` record or the
`mode_already_set` record. -/
inductive SetModeResult where
  | pressed (r : ModeSwitchResult)
  | alreadySet (r : AlreadySetResult)
deriving DecidableEq

/-- Result record of `reset`. -/
structure ResetResult where
  action : String
  lights_off : Bool
  state_cleared : Bool
  current_mode_press_count : Int
  timestamp : Int
  message : String
deriving DecidableEq

/-- `GPIOController.press_color_switch`: pulse the color pin, set
`last_color_pressed`, reset the mode press count to 0, save, and
return the status record. -/
def press_color_switch (s : ControllerState) (color : LightColor) (saveOk : Bool)
    (now : Int) : ControllerState × ColorSwitchResult :=
  let pin := pin_map color
  let last := some color
  let count : Int := 0
  let d := (save_state s.disk saveOk count (colorValue last) now).1
  ({ current_mode_press_count := count, last_color_pressed := last, disk := d },
   { action := "color_switch_pressed", color := color.value, gpio_pin := pin,
     timestamp := now })

/-- One iteration of the loop body in `press_mode_switch`:
`self.current_mode_press_count = (self.current_mode_press_count % 6) + 1`. -/
def stepPos (p : Int) : Int := p % 6 + 1

/-- The `for i in range(count)` loop of `press_mode_switch`, advancing
the position `n` times. -/
def pressLoop (p : Int) : Nat → Int
  | 0 => p
  | n + 1 => pressLoop (stepPos p) n

/-- `GPIOController.press_mode_switch`: press SW4 `count` times
(`range(count)` runs `count.toNat` iterations), look the final count up
in `PRESS_COUNT_TO_MODE` (a `KeyError` is `none`), save, and return
the status record. -/
def press_mode_switch (s : ControllerState) (count : Int) (saveOk : Bool)
    (now : Int) : Option (ControllerState × ModeSwitchResult) :=
  let p := pressLoop s.current_mode_press_count count.toNat
  match PRESS_COUNT_TO_MODE p with
  | none => none
  | some current_mode =>
    let d := (save_state s.disk saveOk p (colorValue s.last_color_pressed) now).1
    some ({ s with current_mode_press_count := p, disk := d },
      { action := "mode_switch_pressed", press_count := count,
        total_mode_presses := p, current_mode := current_mode.value,
        gpio_pin := PIN_SW4_MODE, timestamp := now })

/-- The four-branch press computation inside `GPIOController.set_mode`. -/
def presses_needed (target_count current_count : Int) : Int :=
  if current_count = 0 then target_count
  else if target_count = current_count then 0
  else if target_count > current_count then target_count - current_count
  else (6 - current_count) + target_count

/-- `GPIOController.set_mode`: compute `presses_needed` and delegate to
`press_mode_switch`, or return the `mode_already_set` record without
pressing anything. -/
def set_mode (s : ControllerState) (target_mode : LightMode) (saveOk : Bool)
    (now : Int) : Option (ControllerState × SetModeResult) :=
  let target_count := MODE_PRESS_COUNT target_mode
  let presses := presses_needed target_count s.current_mode_press_count
  if presses > 0 then
    (press_mode_switch s presses saveOk now).map fun x => (x.1, .pressed x.2)
  else
    some (s, .alreadySet
      { action := "mode_already_set", current_mode := target_mode.value,
        total_mode_presses := s.current_mode_press_count, timestamp := now })

/-- `GPIOController.reset`: `set_mode(OFF)`, then zero the in-memory
state, clear the state file (result ignored), and return the record. -/
def reset (s : ControllerState) (saveOk clearOk : Bool) (now : Int) :
    Option (ControllerState × ResetResult) :=
  (set_mode s .off saveOk now).map fun x =>
    let s1 := { x.1 with current_mode_press_count := (0 : Int),
                         last_color_pressed := (none : Option LightColor) }
    let d := (clear_state s1.disk clearOk).1
    ({ s1 with disk := d },
     { action := "system_reset", lights_off := true, state_cleared := true,
       current_mode_press_count := s1.current_mode_press_count, timestamp := now,
       message := "System reset successfully. Lights are off and ready to start from beginning." })

end TrackLights

namespace TrackLights

/-! ## Helper lemmas -/

theorem stepPos_bounds (p : Int) : 1 ≤ stepPos p ∧ stepPos p ≤ 6 := by
  unfold stepPos
  have h1 : 0 ≤ p % 6 := Int.emod_nonneg p (by omega)
  have h2 : p % 6 < 6 := Int.emod_lt_of_pos p (by omega)
  omega

theorem pressLoop_bounds (n : Nat) (p : Int) (h1 : 1 ≤ p) (h6 : p ≤ 6) :
    1 ≤ pressLoop p n ∧ pressLoop p n ≤ 6 := by
  induction n generalizing p with
  | zero => exact ⟨h1, h6⟩
  | succ n ih =>
    show 1 ≤ pressLoop (stepPos p) n ∧ pressLoop (stepPos p) n ≤ 6
    obtain ⟨a, b⟩ := stepPos_bounds p
    exact ih (stepPos p) a b

theorem pressLoop_bounds_of_pos (n : Nat) (hn : 1 ≤ n) (p : Int) :
    1 ≤ pressLoop p n ∧ pressLoop p n ≤ 6 := by
  obtain ⟨m, rfl⟩ : ∃ m, n = m + 1 := ⟨n - 1, by omega⟩
  show 1 ≤ pressLoop (stepPos p) m ∧ pressLoop (stepPos p) m ≤ 6
  obtain ⟨a, b⟩ := stepPos_bounds p
  exact pressLoop_bounds m (stepPos p) a b

theorem PRESS_COUNT_TO_MODE_total (q : Int) :
    (PRESS_COUNT_TO_MODE q).isSome ↔ 1 ≤ q ∧ q ≤ 6 := by
  unfold PRESS_COUNT_TO_MODE
  split_ifs <;> simp <;> omega

theorem set_mode_reaches (s : ControllerState) (m : LightMode)
    (h0 : 0 ≤ s.current_mode_press_count) (h6 : s.current_mode_press_count ≤ 6)
    (saveOk : Bool) (now : Int) :
    ∃ s' r, set_mode s m saveOk now = some (s', r) ∧
      s'.current_mode_press_count = MODE_PRESS_COUNT m ∧
      s'.last_color_pressed = s.last_color_pressed := by
  obtain ⟨p, lc, d⟩ := s
  dsimp only at h0 h6 ⊢
  interval_cases p <;> cases m <;> exact ⟨_, _, rfl, rfl, rfl⟩

theorem dictGet_eq_none (rest : List (String × Json)) (k : String)
    (h : ∀ kv ∈ rest, kv.1 ≠ k) : dictGet rest k = none := by
  induction rest with
  | nil => rfl
  | cons a tl ih =>
    show (match dictGet tl k with
          | some w => some w
          | none => if a.1 = k then some a.2 else none) = none
    rw [ih fun kv hkv => h kv (List.mem_cons_of_mem a hkv)]
    exact if_neg (h a (List.mem_cons_self a tl))

theorem dictGet_append (xs rest : List (String × Json)) (k : String)
    (h : ∀ kv ∈ rest, kv.1 ≠ k) : dictGet (xs ++ rest) k = dictGet xs k := by
  induction xs with
  | nil => simpa using dictGet_eq_none rest k h
  | cons a tl ih =>
    show (match dictGet (tl ++ rest) k with
          | some w => some w
          | none => if a.1 = k then some a.2 else none) = _
    rw [ih]
    rfl

end TrackLights

namespace TrackLights

/-! ## Claim theorems -/

/-- C1: for every current position in [1,6] and every target mode, the
press count computed by `set_mode`'s four-branch formula lies in [0,5],
and applying that many cyclic advances from the current position yields
exactly the target's press count. -/
theorem set_mode_press_formula_correct (c : Int) (h1 : 1 ≤ c) (h6 : c ≤ 6)
    (m : LightMode) :
    0 ≤ presses_needed (MODE_PRESS_COUNT m) c ∧
    presses_needed (MODE_PRESS_COUNT m) c ≤ 5 ∧
    pressLoop c (presses_needed (MODE_PRESS_COUNT m) c).toNat =
      MODE_PRESS_COUNT m := by
  interval_cases c <;> cases m <;> decide

/-- Witness for C1 at current position 5, target `color_duration`. -/
theorem set_mode_press_formula_correct_witness :
    (1 : Int) ≤ 5 ∧ (5 : Int) ≤ 6 ∧
    (0 ≤ presses_needed (MODE_PRESS_COUNT .color_duration) 5 ∧
     presses_needed (MODE_PRESS_COUNT .color_duration) 5 ≤ 5 ∧
     pressLoop 5 (presses_needed (MODE_PRESS_COUNT .color_duration) 5).toNat =
       MODE_PRESS_COUNT .color_duration) :=
  ⟨by decide, by decide,
   set_mode_press_formula_correct 5 (by decide) (by decide) .color_duration⟩

/-- C2: each iteration of `press_mode_switch` advances the position by
`(position mod 6) + 1` (so 0 advances to 1 and 6 advances to 1); from
position 3, pressing 4 times traverses 3→4→5→6→1, ends at position 1,
and the returned record has `total_mode_presses = 1`. -/
theorem press_mode_cyclic_advance_and_scenario :
    (∀ (p : Int) (n : Nat), pressLoop p (n + 1) = pressLoop (p % 6 + 1) n) ∧
    stepPos 0 = 1 ∧ stepPos 6 = 1 ∧
    ∀ (lc : Option LightColor) (d : Disk) (saveOk : Bool) (now : Int),
      ∃ s r, press_mode_switch ⟨3, lc, d⟩ 4 saveOk now = some (s, r) ∧
        pressLoop 3 1 = 4 ∧ pressLoop 3 2 = 5 ∧ pressLoop 3 3 = 6 ∧
        pressLoop 3 4 = 1 ∧
        s.current_mode_press_count = 1 ∧ r.total_mode_presses = 1 :=
  ⟨fun _ _ => rfl, rfl, rfl,
   fun _ _ _ _ => ⟨_, _, rfl, rfl, rfl, rfl, rfl, rfl, rfl⟩⟩

/-- C3: with current position 0 (unknown/reset sentinel), `set_mode`
computes `presses_needed` equal to the target's press count, and the
final position equals that press count. -/
theorem set_mode_from_unknown_position (m : LightMode) :
    presses_needed (MODE_PRESS_COUNT m) 0 = MODE_PRESS_COUNT m ∧
    pressLoop 0 (MODE_PRESS_COUNT m).toNat = MODE_PRESS_COUNT m ∧
    ∀ (lc : Option LightColor) (d : Disk) (saveOk : Bool) (now : Int),
      ∃ s r, set_mode ⟨0, lc, d⟩ m saveOk now = some (s, r) ∧
        s.current_mode_press_count = MODE_PRESS_COUNT m := by
  cases m <;> exact ⟨rfl, rfl, fun _ _ _ _ => ⟨_, _, rfl, rfl⟩⟩

/-- C4: `set_mode` is idempotent: after one successful `set_mode m`, a
second consecutive `set_mode m` computes `presses_needed = 0`, performs
zero pulses, leaves the state unchanged, and returns the
`mode_already_set` record with the current mode and position. -/
theorem set_mode_idempotent (s : ControllerState) (m : LightMode)
    (h0 : 0 ≤ s.current_mode_press_count) (h6 : s.current_mode_press_count ≤ 6)
    (saveOk : Bool) (now : Int) (saveOk2 : Bool) (now2 : Int) :
    ∃ s1 r1, set_mode s m saveOk now = some (s1, r1) ∧
      presses_needed (MODE_PRESS_COUNT m) s1.current_mode_press_count = 0 ∧
      set_mode s1 m saveOk2 now2 = some (s1, .alreadySet
        { action := "mode_already_set", current_mode := m.value,
          total_mode_presses := s1.current_mode_press_count,
          timestamp := now2 }) := by
  obtain ⟨s1, r1, hsm, hpos, _⟩ := set_mode_reaches s m h0 h6 saveOk now
  have hm1 : (1 : Int) ≤ MODE_PRESS_COUNT m := by cases m <;> decide
  have hz : presses_needed (MODE_PRESS_COUNT m) s1.current_mode_press_count
      = 0 := by
    rw [hpos]
    unfold presses_needed
    rw [if_neg (by omega), if_pos rfl]
  refine ⟨s1, r1, hsm, hz, ?_⟩
  simp only [set_mode, hz]
  rfl

/-- Witness for C4 from position 3, target `off`. -/
theorem set_mode_idempotent_witness :
    ∃ s1 r1, set_mode ⟨3, none, .absent⟩ .off true 0 = some (s1, r1) ∧
      presses_needed (MODE_PRESS_COUNT .off) s1.current_mode_press_count = 0 ∧
      set_mode s1 .off false 1 = some (s1, .alreadySet
        { action := "mode_already_set", current_mode := LightMode.off.value,
          total_mode_presses := s1.current_mode_press_count,
          timestamp := 1 }) :=
  set_mode_idempotent ⟨3, none, .absent⟩ .off (by decide) (by decide) true 0
    false 1

end TrackLights

namespace TrackLights

/-- C5: round-trip of the persistent store: for every position in [0,6]
and every color in {null, red, green, yellow}, a successful save
followed by load returns exactly the saved position and color. -/
theorem save_load_round_trip (d : Disk) (p : Int) (h0 : 0 ≤ p) (h6 : p ≤ 6)
    (c : Option String)
    (hc : c = none ∨ c = some "red" ∨ c = some "green" ∨ c = some "yellow")
    (now : Int) :
    (save_state d true p c now).2 = true ∧
    load_state (save_state d true p c now).1 =
      { current_mode_press_count := p, last_color_pressed := colorJson c } := by
  refine ⟨rfl, ?_⟩
  have h1 : dictGet (state_data p c now) "current_mode_press_count" =
      some (.int p) := rfl
  have h2 : dictGet (state_data p c now) "last_color_pressed" =
      some (colorJson c) := rfl
  show load_state (.json (state_data p c now)) = _
  simp only [load_state, h1, h2, isPyInt]
  rw [if_neg (by omega)]
  rfl

/-- Witness for C5 at position 5, color red. -/
theorem save_load_round_trip_witness :
    (save_state .absent true 5 (some "red") 0).2 = true ∧
    load_state (save_state .absent true 5 (some "red") 0).1 =
      { current_mode_press_count := 5,
        last_color_pressed := colorJson (some "red") } :=
  save_load_round_trip .absent 5 (by decide) (by decide) (some "red")
    (Or.inr (Or.inl rfl)) 0

/-- C6: `load_state` always returns a usable value: defaults when the
file is absent, unparseable, missing the required field, or the field
is not an integer in [0,6] (e.g. 99); unknown extra keys are tolerated
and ignored; the returned position is always in [0,6]. -/
theorem load_state_resilient :
    load_state .absent = default_state ∧
    load_state .invalid = default_state ∧
    (∀ kvs, dictGet kvs "current_mode_press_count" = none →
      load_state (.json kvs) = default_state) ∧
    (∀ kvs v, dictGet kvs "current_mode_press_count" = some v →
      isPyInt v = none → load_state (.json kvs) = default_state) ∧
    (∀ kvs n, dictGet kvs "current_mode_press_count" = some (.int n) →
      (n < 0 ∨ 6 < n) → load_state (.json kvs) = default_state) ∧
    load_state (.json [("current_mode_press_count", .int 99)]) = default_state ∧
    (∀ p, 0 ≤ p → p ≤ 6 → ∀ (c : Option String) (now : Int) rest,
      (∀ kv ∈ rest, kv.1 ≠ "current_mode_press_count" ∧
        kv.1 ≠ "last_color_pressed") →
      load_state (.json (state_data p c now ++ rest)) =
        { current_mode_press_count := p, last_color_pressed := colorJson c }) ∧
    ∀ d, 0 ≤ (load_state d).current_mode_press_count ∧
      (load_state d).current_mode_press_count ≤ 6 := by
  refine ⟨rfl, rfl, ?_, ?_, ?_, by decide, ?_, ?_⟩
  · intro kvs h
    simp only [load_state, h]
  · intro kvs v h1 h2
    simp only [load_state, h1, h2]
  · intro kvs n h1 h2
    simp only [load_state, h1, isPyInt]
    rw [if_pos h2]
  · intro p hp0 hp6 c now rest hrest
    have h1 : dictGet (state_data p c now ++ rest) "current_mode_press_count" =
        some (.int p) := by
      rw [dictGet_append _ _ _ fun kv hkv => (hrest kv hkv).1]
      rfl
    have h2 : dictGet (state_data p c now ++ rest) "last_color_pressed" =
        some (colorJson c) := by
      rw [dictGet_append _ _ _ fun kv hkv => (hrest kv hkv).2]
      rfl
    simp only [load_state, h1, h2, isPyInt]
    rw [if_neg (by omega)]
    rfl
  · intro d
    cases d with
    | absent => exact ⟨le_refl 0, by decide⟩
    | invalid => exact ⟨le_refl 0, by decide⟩
    | json kvs =>
      rcases hg : dictGet kvs "current_mode_press_count" with _ | v
      · simp only [load_state, hg]
        exact ⟨le_refl 0, by decide⟩
      · rcases hi : isPyInt v with _ | n
        · simp only [load_state, hg, hi]
          exact ⟨le_refl 0, by decide⟩
        · simp only [load_state, hg, hi]
          split_ifs with h
          · exact ⟨le_refl 0, by decide⟩
          · dsimp only
            omega

/-- Witness for C6: a file missing the required field, and a file whose
press count is not an integer, both load as the defaults. -/
theorem load_state_resilient_witness :
    load_state (.json [("foo", .int 1)]) = default_state ∧
    load_state (.json [("current_mode_press_count", .str "x")]) =
      default_state :=
  ⟨load_state_resilient.2.2.1 [("foo", .int 1)] rfl,
   load_state_resilient.2.2.2.1 [("current_mode_press_count", .str "x")]
     (.str "x") rfl rfl⟩

/-- C7: `press_color_switch`, for every color and every prior state,
sets the last color, resets the mode position to 0, persists position 0
with that color, and returns the `color_switch_pressed` record carrying
the pin bound to that color. -/
theorem press_color_resets_mode_position (s : ControllerState)
    (color : LightColor) (now : Int) :
    (press_color_switch s color true now).1.current_mode_press_count = 0 ∧
    (press_color_switch s color true now).1.last_color_pressed = some color ∧
    (press_color_switch s color true now).1.disk =
      .json (state_data 0 (some color.value) now) ∧
    (press_color_switch s color true now).2 =
      { action := "color_switch_pressed", color := color.value,
        gpio_pin := pin_map color, timestamp := now } ∧
    pin_map .red = PIN_SW1_RED ∧ pin_map .green = PIN_SW2_GREEN ∧
    pin_map .yellow = PIN_SW3_YELLOW :=
  ⟨rfl, rfl, rfl, rfl, rfl, rfl, rfl⟩

end TrackLights

namespace TrackLights

/-- C8: `reset`, from every starting state with position in [0,6],
performs `set_mode off`, zeroes the in-memory position and color,
deletes the state file (absent afterwards), and returns the
`system_reset` record with `lights_off`, `state_cleared`, and
`current_mode_press_count = 0`. -/
theorem reset_clears_state (s : ControllerState)
    (h0 : 0 ≤ s.current_mode_press_count) (h6 : s.current_mode_press_count ≤ 6)
    (saveOk : Bool) (now : Int) :
    reset s saveOk true now = some
      ({ current_mode_press_count := 0, last_color_pressed := none,
         disk := .absent },
       { action := "system_reset", lights_off := true, state_cleared := true,
         current_mode_press_count := 0, timestamp := now,
         message := "System reset successfully. Lights are off and ready to start from beginning." }) := by
  obtain ⟨s1, r1, hsm, _, _⟩ := set_mode_reaches s .off h0 h6 saveOk now
  simp only [reset, hsm, Option.map_some, clear_state]
  rfl

/-- Witness for C8 from position 5 with a red last color. -/
theorem reset_clears_state_witness :
    reset ⟨5, some .red, .invalid⟩ true true 7 = some
      ({ current_mode_press_count := 0, last_color_pressed := none,
         disk := .absent },
       { action := "system_reset", lights_off := true, state_cleared := true,
         current_mode_press_count := 0, timestamp := 7,
         message := "System reset successfully. Lights are off and ready to start from beginning." }) :=
  reset_clears_state ⟨5, some .red, .invalid⟩ (by decide) (by decide) true 7

/-- C9: persistence failure is non-fatal and does not roll back: when
the save reports `false`, `press_color_switch` and `press_mode_switch`
still advance the in-memory position and color to their post-press
values, leave the disk unchanged, and return their normal success
records. -/
theorem persistence_failure_non_fatal (s : ControllerState)
    (color : LightColor) (count : Int) (hc : 1 ≤ count) (now : Int) :
    (∀ (d : Disk) (p : Int) (c : Option String) (t : Int),
      save_state d false p c t = (d, false)) ∧
    ((press_color_switch s color false now).1.current_mode_press_count = 0 ∧
     (press_color_switch s color false now).1.last_color_pressed = some color ∧
     (press_color_switch s color false now).1.disk = s.disk ∧
     (press_color_switch s color false now).2 =
       { action := "color_switch_pressed", color := color.value,
         gpio_pin := pin_map color, timestamp := now }) ∧
    ∃ s' r, press_mode_switch s count false now = some (s', r) ∧
      s'.current_mode_press_count =
        pressLoop s.current_mode_press_count count.toNat ∧
      s'.last_color_pressed = s.last_color_pressed ∧
      s'.disk = s.disk ∧
      r.action = "mode_switch_pressed" ∧ r.press_count = count ∧
      r.total_mode_presses = s'.current_mode_press_count ∧
      r.gpio_pin = PIN_SW4_MODE ∧ r.timestamp = now := by
  refine ⟨fun _ _ _ _ => rfl, ⟨rfl, rfl, rfl, rfl⟩, ?_⟩
  have hn : 1 ≤ count.toNat := by omega
  obtain ⟨a, b⟩ :=
    pressLoop_bounds_of_pos count.toNat hn s.current_mode_press_count
  obtain ⟨m, hm⟩ := Option.isSome_iff_exists.mp
    ((PRESS_COUNT_TO_MODE_total _).mpr ⟨a, b⟩)
  simp only [press_mode_switch, hm]
  exact ⟨_, _, rfl, rfl, rfl, rfl, rfl, rfl, rfl, rfl, rfl⟩

/-- Witness for C9 from position 2 with three presses. -/
theorem persistence_failure_non_fatal_witness :
    (∀ (d : Disk) (p : Int) (c : Option String) (t : Int),
      save_state d false p c t = (d, false)) ∧
    ((press_color_switch ⟨2, some .green, .invalid⟩ .red false 0).1.current_mode_press_count = 0 ∧
     (press_color_switch ⟨2, some .green, .invalid⟩ .red false 0).1.last_color_pressed = some .red ∧
     (press_color_switch ⟨2, some .green, .invalid⟩ .red false 0).1.disk =
       (⟨2, some .green, .invalid⟩ : ControllerState).disk ∧
     (press_color_switch ⟨2, some .green, .invalid⟩ .red false 0).2 =
       { action := "color_switch_pressed", color := LightColor.red.value,
         gpio_pin := pin_map .red, timestamp := 0 }) ∧
    ∃ s' r, press_mode_switch ⟨2, some .green, .invalid⟩ 3 false 0 =
        some (s', r) ∧
      s'.current_mode_press_count =
        pressLoop (⟨2, some .green, .invalid⟩ : ControllerState).current_mode_press_count (3 : Int).toNat ∧
      s'.last_color_pressed =
        (⟨2, some .green, .invalid⟩ : ControllerState).last_color_pressed ∧
      s'.disk = (⟨2, some .green, .invalid⟩ : ControllerState).disk ∧
      r.action = "mode_switch_pressed" ∧ r.press_count = 3 ∧
      r.total_mode_presses = s'.current_mode_press_count ∧
      r.gpio_pin = PIN_SW4_MODE ∧ r.timestamp = 0 :=
  persistence_failure_non_fatal ⟨2, some .green, .invalid⟩ .red 3 (by decide) 0

/-- C10: for every count ≥ 1 and every starting position in [0,6], the
final position after the press loop lies in [1,6], so the reverse
lookup `PRESS_COUNT_TO_MODE` (defined exactly on 1..6) succeeds and
`press_mode_switch` never fails there; the failing branch is reached
when the `count ≥ 1` precondition is violated (count 0 at position 0). -/
theorem press_mode_lookup_safe (s : ControllerState)
    (h0 : 0 ≤ s.current_mode_press_count) (h6 : s.current_mode_press_count ≤ 6)
    (count : Int) (hcnt : 1 ≤ count) (saveOk : Bool) (now : Int) :
    (∃ s' r, press_mode_switch s count saveOk now = some (s', r) ∧
      1 ≤ s'.current_mode_press_count ∧ s'.current_mode_press_count ≤ 6) ∧
    (∀ q : Int, (PRESS_COUNT_TO_MODE q).isSome ↔ 1 ≤ q ∧ q ≤ 6) ∧
    press_mode_switch
      { current_mode_press_count := 0, last_color_pressed := none,
        disk := .absent } 0 saveOk now = none := by
  refine ⟨?_, PRESS_COUNT_TO_MODE_total, rfl⟩
  have hn : 1 ≤ count.toNat := by omega
  obtain ⟨a, b⟩ :=
    pressLoop_bounds_of_pos count.toNat hn s.current_mode_press_count
  obtain ⟨m, hm⟩ := Option.isSome_iff_exists.mp
    ((PRESS_COUNT_TO_MODE_total _).mpr ⟨a, b⟩)
  simp only [press_mode_switch, hm]
  exact ⟨_, _, rfl, a, b⟩

/-- Witness for C10 from position 6 with one press (wrap to 1). -/
theorem press_mode_lookup_safe_witness :
    (∃ s' r, press_mode_switch ⟨6, none, .absent⟩ 1 true 0 = some (s', r) ∧
      1 ≤ s'.current_mode_press_count ∧ s'.current_mode_press_count ≤ 6) ∧
    (∀ q : Int, (PRESS_COUNT_TO_MODE q).isSome ↔ 1 ≤ q ∧ q ≤ 6) ∧
    press_mode_switch
      { current_mode_press_count := 0, last_color_pressed := none,
        disk := .absent } 0 true 0 = none :=
  press_mode_lookup_safe ⟨6, none, .absent⟩ (by decide) (by decide) 1
    (by decide) true 0

end TrackLights
